import Mathlib

/-!
Verification of the BitcoinWallet request-processing pipeline
(`src/core/handlers.py`): a chain-of-responsibility handler sequence over a
mutable `ServiceRequest` attribute bag, with repositories and a currency
converter as external collaborators.

Shallow embedding: Python objects become Lean structures, the mutable request
and wallet repository become explicit state threaded through `handle`, and
raised domain errors become the `Except Err` monad.
-/

namespace BitcoinWallet

/-- Domain error kinds raised by the pipeline (core.errors), plus the
`NotImplementedError` raised by `BaseHandler.handle` and the `KeyError`
raised by indexing a mapping at an absent key. -/
inductive Err where
  | userDoesNotExist
  | walletDoesNotExist
  | walletLimit
  | walletOwnership
  | keyError (key : String)
  | notImplemented
deriving DecidableEq, Repr

/-- Attribute values stored in a `ServiceRequest` (`Any` in the source):
strings (api keys), uuids (wallet addresses, modelled as `Nat`), rationals
(exchange rates; the source's floats undergo no arithmetic here), and wallet
objects (`walletV user_id btc_balance wallet_address`). -/
inductive Value where
  | str (s : String)
  | uuid (n : Nat)
  | rat (q : Rat)
  | walletV (user_id : Value) (btc_balance : Rat) (wallet_address : Nat)
deriving DecidableEq, Repr

/-- A wallet: `Wallet(user_id=..., btc_balance=..., wallet_address=...)` as
constructed in `WalletRegistrationHandler.handle`. The owner `user_id` is the
raw api_key attribute value; the address is a uuid modelled as `Nat`. -/
structure Wallet where
  user_id : Value
  btc_balance : Rat
  wallet_address : Nat
deriving DecidableEq, Repr

/-- The wallet object as stored into the request attribute `wallet`. -/
def Wallet.toValue (w : Wallet) : Value :=
  .walletV w.user_id w.btc_balance w.wallet_address

/-- First-match association-list lookup, modelling `dict.get` / `dict[...]`
on the string-keyed mappings of the source. -/
def getKey {α : Type} : List (String × α) → String → Option α
  | [], _ => none
  | (k', v') :: rest, k => if k' = k then some v' else getKey rest k

/-- Association-list update, modelling `dict[key] = value`: replaces the
binding if the key is present, appends it otherwise. -/
def setKey {α : Type} : List (String × α) → String → α → List (String × α)
  | [], k, v => [(k, v)]
  | (k', v') :: rest, k, v =>
      if k' = k then (k, v) :: rest else (k', v') :: setKey rest k v

/-- `ServiceRequest`: a passive bag of named attributes (`_data`, a dict
modelled as an association list) and an ordered log of skip annotations. -/
structure ServiceRequest where
  data : List (String × Value)
  logs : List String
deriving DecidableEq, Repr

/-- `ServiceRequest.get_attribute(key, default)`: `self._data.get(key, default)`.
The default is passed explicitly (`none` models Python's `None` default). -/
def ServiceRequest.get_attribute (r : ServiceRequest) (key : String)
    (default : Option Value) : Option Value :=
  match getKey r.data key with
  | some v => some v
  | none => default

/-- `ServiceRequest.set_attribute(key, value)`: `self._data[key] = value`. -/
def ServiceRequest.set_attribute (r : ServiceRequest) (key : String)
    (value : Value) : ServiceRequest :=
  { r with data := setKey r.data key value }

/-- `request.logs.append(s)`. -/
def ServiceRequest.appendLog (r : ServiceRequest) (s : String) : ServiceRequest :=
  { r with logs := r.logs ++ [s] }

/-- Modelled from the spec: `core.users.repository.UserRepository` is not
under `src/`; per spec §6 it exposes `read(api_key) -> User`, failing with
`UserDoesNotExist` if absent. A user is identified by its api key, so the
repository is the set of registered api keys. -/
structure UserRepository where
  users : List Value
deriving DecidableEq, Repr

/-- Modelled from the spec: `UserRepository.read(api_key)` returns the user
(identified by its api key) or fails with `UserDoesNotExist`. -/
def UserRepository.read (repo : UserRepository) (api_key : Value) :
    Except Err Value :=
  if api_key ∈ repo.users then .ok api_key else .error .userDoesNotExist

/-- Modelled from the spec: `core.wallets.repository.WalletRepository` is not
under `src/`; per spec §6 it exposes `create`, `read` and
`read_user_wallets` over a store of wallets. -/
structure WalletRepository where
  wallets : List Wallet
deriving DecidableEq, Repr

/-- Modelled from the spec: `read_user_wallets(api_key) -> sequence of Wallet`
— the caller's wallets, i.e. those whose `user_id` is the api key. -/
def WalletRepository.read_user_wallets (repo : WalletRepository)
    (api_key : Value) : List Wallet :=
  repo.wallets.filter (fun w => w.user_id == api_key)

/-- Modelled from the spec: `read(wallet_id) -> Wallet`, failing with
`WalletDoesNotExist` if no stored wallet has that address. -/
def WalletRepository.read (repo : WalletRepository) (wallet_id : Value) :
    Except Err Wallet :=
  match repo.wallets.find? (fun w => Value.uuid w.wallet_address == wallet_id) with
  | some w => .ok w
  | none => .error .walletDoesNotExist

/-- Modelled from the spec: `create(wallet) -> void` stores the wallet
(assumed to succeed). -/
def WalletRepository.create (repo : WalletRepository) (w : Wallet) :
    WalletRepository :=
  ⟨repo.wallets ++ [w]⟩

/-- Modelled from the spec: the external `Converter` collaborator
(`core.converter` / `infra.converter_coinconvert_api` are not under `src/`):
`get_conversion(from_symbol, to_symbol, amount)` yields a mapping containing
the converted amount keyed by target symbol; failures propagate un-wrapped. -/
structure Converter where
  get_conversion : String → String → Nat → Except Err (List (String × Rat))

/-- The handler chain. Each concrete handler of `handlers.py` is one
constructor carrying its read-only dependencies and its `successor` field
(the dataclass field defaulting to `EmptyHandler`, i.e. `.empty`). The
mutable `WalletRepository` shared by the wallet handlers lives in `World`. -/
inductive Handler where
  | empty
  | apiKeyValidation (users : UserRepository) (successor : Handler)
  | btcConversion (conv : Converter) (successor : Handler)
  | walletCount (successor : Handler)
  | walletRegistration (successor : Handler)
  | walletOwnership (successor : Handler)
  | walletFetch (successor : Handler)

/-- The `successor` attribute: `EmptyHandler` has none. -/
def Handler.successor : Handler → Option Handler
  | .empty => none
  | .apiKeyValidation _ s => some s
  | .btcConversion _ s => some s
  | .walletCount s => some s
  | .walletRegistration s => some s
  | .walletOwnership s => some s
  | .walletFetch s => some s

/-- Whether the handler is a `BaseHandler` subclass instance (everything but
`EmptyHandler`), i.e. actually holds a mutable `successor` reference. -/
def Handler.isBase : Handler → Bool
  | .empty => false
  | _ => true

/-- The state of `self` after `self.set_next(next_handler)`:
`BaseHandler.set_next` assigns `self.successor = next_handler`, while
`EmptyHandler.set_next` leaves `self` unchanged. -/
def Handler.set_next : Handler → Handler → Handler
  | .empty, _ => .empty
  | .apiKeyValidation u _, n => .apiKeyValidation u n
  | .btcConversion c _, n => .btcConversion c n
  | .walletCount _, n => .walletCount n
  | .walletRegistration _, n => .walletRegistration n
  | .walletOwnership _, n => .walletOwnership n
  | .walletFetch _, n => .walletFetch n

/-- The return value of `self.set_next(next_handler)`: both `BaseHandler`
and `EmptyHandler` return `next_handler` itself. -/
def Handler.set_next_ret (_self next : Handler) : Handler := next

/-- The mutable world threaded through a chain invocation: the request, the
shared wallet repository, and the uuid source. `uuid4()` (Modelled from the
spec: a fresh globally unique address) is a counter returning `nextUuid` and
incrementing, so every address ever issued is `< nextUuid`. -/
structure World where
  request : ServiceRequest
  walletRepo : WalletRepository
  nextUuid : Nat
deriving DecidableEq, Repr

/-- Append a skip annotation to the request's log list. -/
def World.addLog (w : World) (s : String) : World :=
  { w with request := w.request.appendLog s }

/-- `handle(request)` of each handler of `handlers.py`, as a state transition
`World → Except Err World`; a raised domain error is `.error`, in which case
no successor runs and no final state is produced. -/
def handle : Handler → World → Except Err World
  | .empty, w => .ok w
  | .apiKeyValidation users succ, w =>
      match w.request.get_attribute "api_key" none with
      | some api_key =>
          match users.read api_key with
          | .ok _ => handle succ w
          | .error e => .error e
      | none =>
          handle succ (w.addLog "API key validation skipped, no api_key provided")
  | .btcConversion conv succ, w =>
      match conv.get_conversion "btc" "usd" 1 with
      | .error e => .error e
      | .ok resp =>
          match getKey resp "USD" with
          | some rate =>
              handle succ
                { w with request := w.request.set_attribute "exchange_rate" (.rat rate) }
          | none => .error (.keyError "USD")
  | .walletCount succ, w =>
      match w.request.get_attribute "api_key" none with
      | some api_key =>
          if 3 ≤ (w.walletRepo.read_user_wallets api_key).length then
            .error .walletLimit
          else
            handle succ w
      | none =>
          handle succ (w.addLog "Wallet count skipped, no api_key provided")
  | .walletRegistration succ, w =>
      match w.request.get_attribute "api_key" none with
      | some api_key =>
          let created : Wallet := ⟨api_key, 1, w.nextUuid⟩
          handle succ
            { request :=
                (w.request.set_attribute "wallet_id" (.uuid created.wallet_address)).set_attribute
                  "wallet" created.toValue,
              walletRepo := w.walletRepo.create created,
              nextUuid := w.nextUuid + 1 }
      | none =>
          handle succ (w.addLog "Wallet Registration skipped, no api_key provided")
  | .walletOwnership succ, w =>
      match w.request.get_attribute "api_key" none with
      | none =>
          handle succ (w.addLog "Wallet ownership check skipped, no api_key provided")
      | some api_key =>
          match w.request.get_attribute "wallet_id" none with
          | none =>
              handle succ (w.addLog "Wallet ownership check skipped, no wallet_id provided")
          | some wallet_id =>
              if wallet_id ∈
                  (w.walletRepo.read_user_wallets api_key).map
                    (fun wl => Value.uuid wl.wallet_address) then
                handle succ w
              else
                .error .walletOwnership
  | .walletFetch succ, w =>
      match w.request.get_attribute "wallet_id" none with
      | some wallet_id =>
          match w.walletRepo.read wallet_id with
          | .ok wallet =>
              handle succ
                { w with request := w.request.set_attribute "wallet" wallet.toValue }
          | .error e => .error e
      | none =>
          handle succ (w.addLog "Wallet fetch skipped, wallet_id was not provided")

/-- `BaseHandler.__init__`: `self.successor: Optional[ServiceHandler] = None`. -/
structure BaseHandler where
  successor : Option Handler

/-- A freshly constructed abstract `BaseHandler()`. -/
def BaseHandler.init : BaseHandler := ⟨none⟩

/-- `BaseHandler.handle` raises `NotImplementedError` unconditionally. -/
def BaseHandler.handle (_b : BaseHandler) (_w : World) : Except Err World :=
  .error .notImplemented

/-- Default-constructed `ApiKeyValidationHandler(users=...)`: the dataclass
`successor` field defaults to `EmptyHandler()`. -/
def mkApiKeyValidationHandler (users : UserRepository) : Handler :=
  .apiKeyValidation users .empty

/-- Default-constructed `BtcConversionHandler(converter=...)`. -/
def mkBtcConversionHandler (conv : Converter) : Handler :=
  .btcConversion conv .empty

/-- Default-constructed `WalletCountHandler(wallets=<shared repo>)`. -/
def mkWalletCountHandler : Handler := .walletCount .empty

/-- Default-constructed `WalletRegistrationHandler(wallets=<shared repo>)`. -/
def mkWalletRegistrationHandler : Handler := .walletRegistration .empty

/-- Default-constructed `WalletOwnershipHandler(wallets=<shared repo>)`. -/
def mkWalletOwnershipHandler : Handler := .walletOwnership .empty

/-- Default-constructed `WalletFetchHandler(wallets=<shared repo>)`. -/
def mkWalletFetchHandler : Handler := .walletFetch .empty

/-- `HandlerConfigurator._chain_handlers`: an empty list yields
`EmptyHandler()`; otherwise `handlers[i].set_next(handlers[i+1])` for each
`i`, returning `handlers[0]`. In-place mutation of each element's
`successor` becomes a right fold of `Handler.set_next`. -/
def chain_handlers : List Handler → Handler
  | [] => .empty
  | [h] => h
  | h :: rest => Handler.set_next h (chain_handlers rest)

/-! ## Test fixtures (concrete inputs used by the witnesses) -/

/-- A request with no attributes and no logs. -/
def emptyRequest : ServiceRequest := ⟨[], []⟩

/-- A world with an empty request, an empty wallet store, and uuid source 0. -/
def testW : World := ⟨emptyRequest, ⟨[]⟩, 0⟩

/-- The api key "u1" of the spec's end-to-end scenarios. -/
def u1 : Value := .str "u1"

/-- A wallet of user "u1" with balance 1 and address `n`. -/
def walOf (n : Nat) : Wallet := ⟨u1, 1, n⟩

/-- A repository in which "u1" already owns 3 wallets. -/
def repo3 : WalletRepository := ⟨[walOf 0, walOf 1, walOf 2]⟩

/-- A request carrying `api_key = "u1"`. -/
def reqU1 : ServiceRequest := ⟨[("api_key", u1)], []⟩

/-- The world of the scenario where "u1" already owns 3 wallets. -/
def w3 : World := ⟨reqU1, repo3, 3⟩

/-- A request carrying only `wallet_id = "missing"`. -/
def reqMissing : ServiceRequest := ⟨[("wallet_id", .str "missing")], []⟩

/-- The world of the `{wallet_id: "missing"}` fetch scenario: no stored wallets. -/
def wMissing : World := ⟨reqMissing, ⟨[]⟩, 0⟩

/-- A converter that always reports 1 BTC = 50000 USD. -/
def testConverter : Converter := ⟨fun _ _ _ => .ok [("USD", 50000)]⟩

/-- A converter that always fails with a `KeyError`-like failure. -/
def failingConverter : Converter := ⟨fun _ _ _ => .error (.keyError "down")⟩

/-! ## Helper lemmas about the attribute bag -/

/-- Looking up a key right after setting it yields the new value. -/
theorem getKey_setKey_self {α : Type} (l : List (String × α)) (k : String)
    (v : α) : getKey (setKey l k v) k = some v := by
  induction l with
  | nil => simp [setKey, getKey]
  | cons p rest ih =>
      obtain ⟨k', v'⟩ := p
      by_cases hk : k' = k <;> simp [setKey, getKey, hk, ih]

/-- Setting one key leaves every other key's binding unchanged. -/
theorem getKey_setKey_other {α : Type} (l : List (String × α)) (k k2 : String)
    (v : α) (hne : k2 ≠ k) : getKey (setKey l k v) k2 = getKey l k2 := by
  induction l with
  | nil => simp [setKey, getKey, Ne.symm hne]
  | cons p rest ih =>
      obtain ⟨k', v'⟩ := p
      by_cases hk : k' = k
      · subst hk
        simp [setKey, getKey, Ne.symm hne]
      · by_cases h2 : k' = k2 <;> simp [setKey, getKey, hk, h2, hne, ih]

/-- `get_attribute` right after `set_attribute` of the same key returns the
value just set, whatever the default. -/
theorem get_attribute_set_self (r : ServiceRequest) (k : String) (v : Value)
    (d : Option Value) : (r.set_attribute k v).get_attribute k d = some v := by
  simp [ServiceRequest.get_attribute, ServiceRequest.set_attribute,
    getKey_setKey_self]

/-- `set_attribute` on one key does not change `get_attribute` of another. -/
theorem get_attribute_set_other (r : ServiceRequest) (k k2 : String) (v : Value)
    (d : Option Value) (hne : k2 ≠ k) :
    (r.set_attribute k v).get_attribute k2 d = r.get_attribute k2 d := by
  simp [ServiceRequest.get_attribute, ServiceRequest.set_attribute,
    getKey_setKey_other _ _ _ _ hne]

/-- `set_next` on a `BaseHandler` subclass instance makes the argument its
successor. -/
theorem successor_set_next (A X : Handler) (hA : A.isBase = true) :
    (A.set_next X).successor = some X := by
  cases A <;> simp_all [Handler.isBase, Handler.set_next, Handler.successor]

/-! ## Claims -/

/-- Claim C1: for every request whose attribute bag lacks `api_key`, each
api-key-gated handler (ApiKeyValidation, WalletCount, WalletRegistration,
WalletOwnership) skips its own check or action, appends a log entry
explaining the skip, and still invokes its successor's handle on the same
request (only the log changed); the chain never halts solely because
`api_key` is absent. -/
theorem apiKeyAbsent_skips_logs_delegates (users : UserRepository)
    (succ : Handler) (w : World)
    (h : w.request.get_attribute "api_key" none = none) :
    handle (.apiKeyValidation users succ) w
        = handle succ (w.addLog "API key validation skipped, no api_key provided") ∧
    handle (.walletCount succ) w
        = handle succ (w.addLog "Wallet count skipped, no api_key provided") ∧
    handle (.walletRegistration succ) w
        = handle succ (w.addLog "Wallet Registration skipped, no api_key provided") ∧
    handle (.walletOwnership succ) w
        = handle succ (w.addLog "Wallet ownership check skipped, no api_key provided") := by
  refine ⟨?_, ?_, ?_, ?_⟩ <;> simp [handle, h]

/-- Witness for C1 at the empty request: no `api_key`, and each gated handler
reduces to its successor on the log-extended world. -/
theorem apiKeyAbsent_skips_logs_delegates_witness :
    testW.request.get_attribute "api_key" none = none ∧
    handle (.walletCount .empty) testW
      = handle .empty (testW.addLog "Wallet count skipped, no api_key provided") :=
  ⟨rfl, (apiKeyAbsent_skips_logs_delegates ⟨[]⟩ .empty testW rfl).2.1⟩

/-- Claim C4 counterexample: `BaseHandler.__init__` sets
`self.successor = None`, not an `EmptyHandler`, so the abstract
`BaseHandler`'s successor reference does NOT default to `EmptyHandler`. -/
theorem baseHandler_default_not_empty :
    BaseHandler.init.successor ≠ some Handler.empty := by
  simp [BaseHandler.init]

/-- Claim C4 (amended): the abstract `BaseHandler` initializes its successor
to `None`, but its `handle`, if invoked directly, fails loudly by raising
`NotImplementedError` (a programming-error signal) before any successor
dereference; each concrete handler's dataclass `successor` field defaults to
`EmptyHandler`, so invoking `handle` on an unconfigured concrete handler
never dereferences a null successor. -/
theorem baseHandler_raises_and_defaults (users : UserRepository)
    (conv : Converter) :
    BaseHandler.init.successor = none ∧
    (∀ (b : BaseHandler) (w : World), b.handle w = .error .notImplemented) ∧
    (mkApiKeyValidationHandler users).successor = some Handler.empty ∧
    (mkBtcConversionHandler conv).successor = some Handler.empty ∧
    mkWalletCountHandler.successor = some Handler.empty ∧
    mkWalletRegistrationHandler.successor = some Handler.empty ∧
    mkWalletOwnershipHandler.successor = some Handler.empty ∧
    mkWalletFetchHandler.successor = some Handler.empty :=
  ⟨rfl, fun _ _ => rfl, rfl, rfl, rfl, rfl, rfl, rfl⟩

/-- Claim C9: `ServiceRequest` is a passive bag obeying a set/get
round-trip: `get_attribute(k, d)` right after `set_attribute(k, v)` returns
`v`; `get_attribute` of a key never set returns the supplied default (`none`,
i.e. Python's `None`, when no default is given); and `set_attribute` on one
key leaves every other key's value unchanged. -/
theorem serviceRequest_set_get (r : ServiceRequest) (k k2 : String)
    (v : Value) (d d2 : Option Value) (hne : k2 ≠ k) :
    (r.set_attribute k v).get_attribute k d = some v ∧
    (∀ key dflt, (ServiceRequest.mk [] []).get_attribute key dflt = dflt) ∧
    (ServiceRequest.mk [] []).get_attribute k none = none ∧
    (r.set_attribute k v).get_attribute k2 d2 = r.get_attribute k2 d2 := by
  refine ⟨get_attribute_set_self r k v d, ?_, ?_, get_attribute_set_other r k k2 v d2 hne⟩
  · intro key dflt
    simp [ServiceRequest.get_attribute, getKey]
  · simp [ServiceRequest.get_attribute, getKey]

/-- Witness for C9 at concrete keys "a" ≠ "b", value `uuid 7`, default
`str "d"`. -/
theorem serviceRequest_set_get_witness :
    ("b" : String) ≠ "a" ∧
    ((emptyRequest.set_attribute "a" (.uuid 7)).get_attribute "a"
        (some (.str "d")) = some (.uuid 7) ∧
      (emptyRequest.set_attribute "a" (.uuid 7)).get_attribute "b"
        (some (.str "d")) = emptyRequest.get_attribute "b" (some (.str "d"))) :=
  ⟨by decide,
    (serviceRequest_set_get emptyRequest "a" "b" (.uuid 7) (some (.str "d"))
        (some (.str "d")) (by decide)).1,
    (serviceRequest_set_get emptyRequest "a" "b" (.uuid 7) (some (.str "d"))
        (some (.str "d")) (by decide)).2.2.2⟩

/-- Claim C10: `EmptyHandler.set_next(h)` returns `h` but does not link it:
the `EmptyHandler` itself is unchanged, its `handle` still returns
immediately with the world (request attributes and logs) untouched, and `h`
is never invoked — a handler appended after an `EmptyHandler` is silently
discarded from the chain. -/
theorem emptyHandler_set_next_discards (h : Handler) (w : World) :
    Handler.set_next .empty h = .empty ∧
    Handler.set_next_ret .empty h = h ∧
    handle (Handler.set_next .empty h) w = .ok w :=
  ⟨rfl, rfl, rfl⟩

/-- Claim C2: when the request carries an `api_key` whose user already owns
3 or more wallets according to `read_user_wallets`, `WalletCountHandler`
raises `WalletLimit` and never invokes its successor; in the chain
[ApiKeyValidation, WalletCount, WalletRegistration] (for a registered user)
the whole invocation fails with `WalletLimit`, so `WalletRegistrationHandler`
is never reached and no wallet is created (the error result carries no new
state). With fewer than 3 wallets it delegates onward without raising. -/
theorem walletCount_limit (users : UserRepository) (succ : Handler)
    (w : World) (api_key : Value)
    (hk : w.request.get_attribute "api_key" none = some api_key) :
    (3 ≤ (w.walletRepo.read_user_wallets api_key).length →
      handle (.walletCount succ) w = .error .walletLimit ∧
      (api_key ∈ users.users →
        handle (chain_handlers [mkApiKeyValidationHandler users,
            mkWalletCountHandler, mkWalletRegistrationHandler]) w
          = .error .walletLimit)) ∧
    ((w.walletRepo.read_user_wallets api_key).length < 3 →
      handle (.walletCount succ) w = handle succ w) := by
  refine ⟨fun h3 => ⟨by simp [handle, hk, h3], fun hmem => ?_⟩, fun h3 => ?_⟩
  · simp [chain_handlers, mkApiKeyValidationHandler, mkWalletCountHandler,
      mkWalletRegistrationHandler, Handler.set_next, handle, hk,
      UserRepository.read, hmem, h3]
  · simp [handle, hk, Nat.not_le.mpr h3]

/-- Witness for C2: "u1" is registered and owns exactly 3 wallets, so both
the lone `WalletCountHandler` and the full registration chain raise
`WalletLimit`. -/
theorem walletCount_limit_witness :
    w3.request.get_attribute "api_key" none = some u1 ∧
    3 ≤ (w3.walletRepo.read_user_wallets u1).length ∧
    handle (.walletCount .empty) w3 = .error .walletLimit ∧
    handle (chain_handlers [mkApiKeyValidationHandler ⟨[u1]⟩,
        mkWalletCountHandler, mkWalletRegistrationHandler]) w3
      = .error .walletLimit :=
  ⟨rfl, by decide,
    ((walletCount_limit ⟨[u1]⟩ .empty w3 u1 rfl).1 (by decide)).1,
    ((walletCount_limit ⟨[u1]⟩ .empty w3 u1 rfl).1 (by decide)).2 (by decide)⟩

/-- Claim C3: `_chain_handlers` applied to the empty list returns an
`EmptyHandler` whose `handle` is a no-op (never null); applied to a
non-empty list `[A, B, C]` of `BaseHandler` instances it makes B (as linked
to C) the successor of the returned head A and C the successor of that
linked B, while C itself is untouched — so a default-constructed last
handler keeps its default `EmptyHandler` successor. Chaining is a pure
function of the ordered list, hence deterministic. -/
theorem chain_handlers_topology (A B C : Handler) (hA : A.isBase = true)
    (hB : B.isBase = true) (hC : C.successor = some Handler.empty) :
    chain_handlers [] = Handler.empty ∧
    (∀ w, handle (chain_handlers []) w = .ok w) ∧
    chain_handlers [A, B, C] = A.set_next (B.set_next C) ∧
    (chain_handlers [A, B, C]).successor = some (B.set_next C) ∧
    (B.set_next C).successor = some C ∧
    ((chain_handlers [A, B, C]).successor.bind Handler.successor).bind
        Handler.successor = some Handler.empty := by
  have h3 : chain_handlers [A, B, C] = A.set_next (B.set_next C) := by
    simp [chain_handlers]
  refine ⟨rfl, fun w => rfl, h3, ?_, successor_set_next B C hB, ?_⟩
  · rw [h3, successor_set_next A _ hA]
  · rw [h3, successor_set_next A _ hA]
    simp [successor_set_next B C hB, hC]

/-- Witness for C3 on a concrete fresh chain [ApiKeyValidation,
WalletCount, WalletRegistration]. -/
theorem chain_handlers_topology_witness :
    (mkApiKeyValidationHandler ⟨[]⟩).isBase = true ∧
    mkWalletCountHandler.isBase = true ∧
    mkWalletRegistrationHandler.successor = some Handler.empty ∧
    chain_handlers [mkApiKeyValidationHandler ⟨[]⟩, mkWalletCountHandler,
        mkWalletRegistrationHandler]
      = (mkApiKeyValidationHandler ⟨[]⟩).set_next
          (mkWalletCountHandler.set_next mkWalletRegistrationHandler) :=
  ⟨rfl, rfl, rfl,
    (chain_handlers_topology (mkApiKeyValidationHandler ⟨[]⟩)
        mkWalletCountHandler mkWalletRegistrationHandler rfl rfl rfl).2.2.1⟩

/-- Claim C5: when the request carries an `api_key`, `WalletRegistration`
creates a wallet owned by that api_key with balance exactly 1 BTC and the
freshly generated address `nextUuid` — distinct from every previously
issued address, given the uuid-source invariant that all stored addresses
are below `nextUuid` — passes it to `WalletRepository.create`, and writes
the new address under `wallet_id` and the wallet object under `wallet`
before delegating to its successor. -/
theorem walletRegistration_creates (succ : Handler) (w : World)
    (api_key : Value)
    (hk : w.request.get_attribute "api_key" none = some api_key)
    (hfresh : ∀ wl ∈ w.walletRepo.wallets, wl.wallet_address < w.nextUuid) :
    handle (.walletRegistration succ) w
      = handle succ
          { request := (w.request.set_attribute "wallet_id"
                (.uuid w.nextUuid)).set_attribute "wallet"
                (Wallet.toValue ⟨api_key, 1, w.nextUuid⟩),
            walletRepo := w.walletRepo.create ⟨api_key, 1, w.nextUuid⟩,
            nextUuid := w.nextUuid + 1 } ∧
    (∀ wl ∈ w.walletRepo.wallets, wl.wallet_address ≠ w.nextUuid) ∧
    ((w.request.set_attribute "wallet_id" (.uuid w.nextUuid)).set_attribute
        "wallet" (Wallet.toValue ⟨api_key, 1, w.nextUuid⟩)).get_attribute
        "wallet_id" none = some (.uuid w.nextUuid) ∧
    ((w.request.set_attribute "wallet_id" (.uuid w.nextUuid)).set_attribute
        "wallet" (Wallet.toValue ⟨api_key, 1, w.nextUuid⟩)).get_attribute
        "wallet" none = some (Wallet.toValue ⟨api_key, 1, w.nextUuid⟩) := by
  refine ⟨by simp [handle, hk], fun wl hwl => Nat.ne_of_lt (hfresh wl hwl), ?_, ?_⟩
  · rw [get_attribute_set_other _ _ _ _ _ (by decide)]
    exact get_attribute_set_self _ _ _ _
  · exact get_attribute_set_self _ _ _ _

/-- Witness for C5: registering in the 3-wallet world of "u1" (addresses
0, 1, 2; uuid source at 3) creates wallet ⟨u1, 1, 3⟩ with a fresh address. -/
theorem walletRegistration_creates_witness :
    w3.request.get_attribute "api_key" none = some u1 ∧
    (∀ wl ∈ w3.walletRepo.wallets, wl.wallet_address < w3.nextUuid) ∧
    (∀ wl ∈ w3.walletRepo.wallets, wl.wallet_address ≠ w3.nextUuid) :=
  ⟨rfl, by decide,
    (walletRegistration_creates .empty w3 u1 rfl (by decide)).2.1⟩

/-- Claim C6: when the request carries both `api_key` and `wallet_id`,
`WalletOwnershipHandler` raises `WalletOwnership` exactly when `wallet_id`
is not among the wallet addresses returned by `read_user_wallets(api_key)`,
and otherwise delegates to its successor on the unchanged world (no
attribute written, no log appended). -/
theorem walletOwnership_check (succ : Handler) (w : World)
    (api_key wallet_id : Value)
    (hk : w.request.get_attribute "api_key" none = some api_key)
    (hw : w.request.get_attribute "wallet_id" none = some wallet_id) :
    (wallet_id ∉ (w.walletRepo.read_user_wallets api_key).map
        (fun wl => Value.uuid wl.wallet_address) →
      handle (.walletOwnership succ) w = .error .walletOwnership) ∧
    (wallet_id ∈ (w.walletRepo.read_user_wallets api_key).map
        (fun wl => Value.uuid wl.wallet_address) →
      handle (.walletOwnership succ) w = handle succ w) := by
  constructor <;> intro hmem <;> simp [handle, hk, hw, hmem]

/-- Witness for C6: "u1" owns wallets 0, 1, 2; `wallet_id = uuid 0` passes
silently, `wallet_id = uuid 9` raises `WalletOwnership`. -/
theorem walletOwnership_check_witness :
    handle (.walletOwnership .empty)
        ⟨⟨[("api_key", u1), ("wallet_id", .uuid 0)], []⟩, repo3, 3⟩
      = handle .empty ⟨⟨[("api_key", u1), ("wallet_id", .uuid 0)], []⟩, repo3, 3⟩ ∧
    handle (.walletOwnership .empty)
        ⟨⟨[("api_key", u1), ("wallet_id", .uuid 9)], []⟩, repo3, 3⟩
      = .error .walletOwnership :=
  ⟨(walletOwnership_check .empty
      ⟨⟨[("api_key", u1), ("wallet_id", .uuid 0)], []⟩, repo3, 3⟩
      u1 (.uuid 0) rfl rfl).2 (by decide),
    (walletOwnership_check .empty
      ⟨⟨[("api_key", u1), ("wallet_id", .uuid 9)], []⟩, repo3, 3⟩
      u1 (.uuid 9) rfl rfl).1 (by decide)⟩

/-- Claim C7: when the request carries a `wallet_id`, `WalletFetchHandler`
loads the wallet by that id from the wallet repository and writes it under
the attribute `wallet` before delegating; if the repository signals the
wallet is missing, the handler raises `WalletDoesNotExist` and no
downstream handler executes (the whole invocation is the error). -/
theorem walletFetch_loads_or_raises (succ : Handler) (w : World)
    (wallet_id : Value)
    (hw : w.request.get_attribute "wallet_id" none = some wallet_id) :
    (∀ wallet, w.walletRepo.read wallet_id = .ok wallet →
      handle (.walletFetch succ) w
        = handle succ
            { w with request := w.request.set_attribute "wallet" wallet.toValue }) ∧
    (w.walletRepo.read wallet_id = .error .walletDoesNotExist →
      handle (.walletFetch succ) w = .error .walletDoesNotExist) := by
  constructor
  · intro wallet hread
    simp [handle, hw, hread]
  · intro hread
    simp [handle, hw, hread]

/-- Witness for C7, the spec's end-to-end scenario: request
`{wallet_id: "missing"}` through the chain [WalletFetch] raises
`WalletDoesNotExist`. -/
theorem walletFetch_loads_or_raises_witness :
    wMissing.request.get_attribute "wallet_id" none = some (.str "missing") ∧
    wMissing.walletRepo.read (.str "missing") = .error .walletDoesNotExist ∧
    handle (chain_handlers [mkWalletFetchHandler]) wMissing
      = .error .walletDoesNotExist :=
  ⟨rfl, rfl,
    (walletFetch_loads_or_raises .empty wMissing (.str "missing") rfl).2 rfl⟩

/-- Claim C8: `BtcConversionHandler` has no precondition attribute: on every
invocation (any request state) it calls the converter's `get_conversion`
with from-symbol btc, to-symbol usd and amount 1, writes the converted
amount found in the returned mapping under the target symbol key "USD" into
the attribute `exchange_rate`, then delegates; a converter failure
propagates un-wrapped as the result of the whole invocation. -/
theorem btcConversion_rate (conv : Converter) (succ : Handler) (w : World) :
    (∀ e, conv.get_conversion "btc" "usd" 1 = .error e →
      handle (.btcConversion conv succ) w = .error e) ∧
    (∀ resp rate, conv.get_conversion "btc" "usd" 1 = .ok resp →
      getKey resp "USD" = some rate →
      handle (.btcConversion conv succ) w
        = handle succ
            { w with request := w.request.set_attribute "exchange_rate" (.rat rate) }) := by
  constructor
  · intro e he
    simp [handle, he]
  · intro resp rate hresp hrate
    simp [handle, hresp, hrate]

/-- Witness for C8: the constant 50000-USD converter enriches the empty
request, and the failing converter's error propagates un-wrapped. -/
theorem btcConversion_rate_witness :
    handle (.btcConversion testConverter .empty) testW
      = handle .empty
          { testW with
            request := testW.request.set_attribute "exchange_rate" (.rat 50000) } ∧
    handle (.btcConversion failingConverter .empty) testW
      = .error (.keyError "down") :=
  ⟨(btcConversion_rate testConverter .empty testW).2 [("USD", 50000)] 50000 rfl rfl,
    (btcConversion_rate failingConverter .empty testW).1 (.keyError "down") rfl⟩

end BitcoinWallet
